import Mathlib

/-!
# Verification of the hotel booking MCP server

Shallow embedding of `hotel_booking_mcp_server.py`: the calendar classifier
(`get_season`, `is_weekend`), the dynamic pricing engine
(`calculate_dynamic_price`), and the database-backed tools
(`create_booking`, `cancel_booking`, `check_room_availability`,
`list_bookings_by_email`) modelled as pure functions over an explicit
database state.  Monetary values are modelled as exact rationals, SQL `DATE`
values as proleptic-Gregorian day ordinals (the same convention as Python's
`datetime.date.toordinal`), and Python exceptions as `Except` errors; a
raised exception triggers `conn.rollback()`, so an erroring operation leaves
the database state unchanged.
-/

/-- A calendar date as parsed by `datetime.strptime(s, "%Y-%m-%d")`. -/
structure Date where
  year : Nat
  month : Nat
  day : Nat
deriving DecidableEq

/-- Days since 0000-03-01 in the proleptic Gregorian calendar
(Gregorian civil-from-date conversion, all-natural arithmetic). -/
def Date.civil (dt : Date) : Nat :=
  let y := if dt.month ≤ 2 then dt.year - 1 else dt.year
  let era := y / 400
  let yoe := y % 400
  let mp := (dt.month + 9) % 12
  let doy := (153 * mp + 2) / 5 + dt.day - 1
  let doe := yoe * 365 + yoe / 4 - yoe / 100 + doy
  era * 146097 + doe

/-- Python `datetime.date.toordinal`: day 1 is 0001-01-01. -/
def Date.toOrd (dt : Date) : Int :=
  (dt.civil : Int) - 305

/-- Calendar month of a day ordinal (inverse of `Date.civil`, restricted to
the month component).  Used to classify each night of a stay. -/
def monthOfOrd (ord : Int) : Nat :=
  let z := (ord + 305).toNat
  let doe := z % 146097
  let yoe := (doe - doe / 1460 + doe / 36524 - doe / 146096) / 365
  let doy := doe - (365 * yoe + yoe / 4 - yoe / 100)
  let mp := (5 * doy + 2) / 153
  if mp < 10 then mp + 3 else mp - 9

/-- Python `date.weekday()`: Monday = 0 … Sunday = 6. -/
def weekdayOfOrd (ord : Int) : Int :=
  (ord + 6).emod 7

/-- `get_season`: peak iff the month is June, July, August, December or
January. -/
def get_season (ord : Int) : String :=
  let month := monthOfOrd ord
  if month = 6 ∨ month = 7 ∨ month = 8 ∨ month = 12 ∨ month = 1 then "peak"
  else "regular"

/-- `is_weekend`: Saturday (5) or Sunday (6). -/
def is_weekend (ord : Int) : Bool :=
  weekdayOfOrd ord = 5 ∨ weekdayOfOrd ord = 6

/-- The `day_type` string computed for each night. -/
def dayTypeOfOrd (ord : Int) : String :=
  if is_weekend ord then "weekend" else "weekday"

/-- Python's `round(x)` to an integer (banker's rounding, round-half-even),
idealised over exact rationals and computed on the numerator and
denominator: `f` is the floor of `q` and `r` the numerator of the
fractional part, so `q - f = r / q.den` with `0 ≤ r < q.den`. -/
def roundHalfEven (q : ℚ) : ℤ :=
  let f := q.num.fdiv q.den
  let r := q.num - f * q.den
  if 2 * r < (q.den : ℤ) then f
  else if (q.den : ℤ) < 2 * r then f + 1
  else if f % 2 = 0 then f else f + 1

/-- Python `round(x, 2)` over exact rationals. -/
def round2 (q : ℚ) : ℚ :=
  (roundHalfEven (q * 100) : ℚ) / 100

/-- A row of the `pricing_rules` table (`hotel_id` NULL means a global
rule; `season` / `day_of_week` are nullable text filters). -/
structure PricingRule where
  hotel_id : Option Nat
  season : Option String
  day_of_week : Option String
  price_multiplier : ℚ
  priority : Int
deriving DecidableEq

/-- The rule query of `calculate_dynamic_price`:
`WHERE hotel_id = %s OR hotel_id IS NULL ORDER BY priority DESC`. -/
def fetchPricingRules (rulesDb : List PricingRule) (hotel_id : Nat) :
    List PricingRule :=
  (rulesDb.filter fun r =>
    (r.hotel_id == some hotel_id) || (r.hotel_id == none)).mergeSort
    fun a b => decide (b.priority ≤ a.priority)

/-- The per-rule applicability test of the pricing loop.  Python truthiness:
`if rule_season and rule_season != season` skips the season constraint both
when the filter is SQL NULL and when it is the empty string. -/
def ruleApplies (r : PricingRule) (season day_type : String) : Bool :=
  (match r.season with
   | none => true
   | some s => s == "" || s == season) &&
  (match r.day_of_week with
   | none => true
   | some d => d == "" || d == day_type)

/-- The scan-with-break over the priority-sorted rules: multiplier of the
first applying rule, `1.0` when none applies. -/
def selectMultiplier : List PricingRule → String → String → ℚ
  | [], _, _ => 1
  | r :: rs, season, day_type =>
    if ruleApplies r season day_type then r.price_multiplier
    else selectMultiplier rs season day_type

/-- Effective multiplier for one night: fetch the hotel's candidate rules
(hotel-specific or global, priority descending) and scan. -/
def nightMultiplier (rulesDb : List PricingRule) (hotel_id : Nat)
    (ord : Int) : ℚ :=
  selectMultiplier (fetchPricingRules rulesDb hotel_id) (get_season ord)
    (dayTypeOfOrd ord)

/-- The result dictionary of `calculate_dynamic_price` (breakdown fields
inlined). -/
structure PriceResult where
  total_price : ℚ
  average_per_night : ℚ
  nights : Int
  base_total : ℚ
  after_dynamic_pricing : ℚ
  corporate_discount_percent : ℚ
  corporate_discount_amount : ℚ
  final_total : ℚ
  corporate_discount_applied : ℚ
deriving DecidableEq

/-- The one exception `calculate_dynamic_price` itself can raise:
`total_price / nights` with `nights == 0` (Python `ZeroDivisionError`). -/
inductive PriceError where
  | zeroDivision
deriving DecidableEq

/-- `calculate_dynamic_price`: per-night dynamic pricing followed by the
corporate discount.  The while-loop over `[check_in, check_out)` runs
`(check_out - check_in).days` times when that is positive and zero times
otherwise; the division `total_price / nights` raises iff `nights = 0`. -/
def calculate_dynamic_price (rulesDb : List PricingRule) (base_price : ℚ)
    (check_in check_out : Date) (hotel_id : Nat) (is_corporate : Bool)
    (corporate_discount : ℚ) : Except PriceError PriceResult :=
  let nights : Int := check_out.toOrd - check_in.toOrd
  let total0 : ℚ :=
    (List.range nights.toNat).foldl
      (fun acc (i : Nat) =>
        acc + base_price * nightMultiplier rulesDb hotel_id
          (check_in.toOrd + i)) 0
  let discount_amount : ℚ :=
    if is_corporate ∧ 0 < corporate_discount then
      total0 * (corporate_discount / 100)
    else 0
  let total_price : ℚ := total0 - discount_amount
  if nights = 0 then .error .zeroDivision
  else .ok
    { total_price := round2 total_price
      average_per_night := round2 (total_price / (nights : ℚ))
      nights := nights
      base_total := base_price * (nights : ℚ)
      after_dynamic_pricing := total_price + discount_amount
      corporate_discount_percent := if is_corporate then corporate_discount else 0
      corporate_discount_amount := round2 discount_amount
      final_total := round2 total_price
      corporate_discount_applied := round2 discount_amount }

/-- A row of the `users` table (`email` and `user_code` are UNIQUE). -/
structure UserRow where
  user_id : Nat
  user_code : String
  first_name : String
  last_name : String
  email : String
  is_corporate : Bool
  company_name : Option String
deriving DecidableEq

/-- The columns of the `hotels` table read by the booking core. -/
structure HotelRow where
  hotel_id : Nat
  corporate_discount_percent : ℚ
deriving DecidableEq

/-- The columns of the `rooms` table read by the booking core. -/
structure RoomRow where
  room_id : Nat
  hotel_id : Nat
  base_price : ℚ
deriving DecidableEq

/-- A row of `room_inventory`: one (room, date) availability counter with a
price snapshot.  `date` is a day ordinal. -/
structure InvRow where
  room_id : Nat
  date : Int
  available_count : Int
  price : ℚ
deriving DecidableEq

/-- A row of the `bookings` table (dates as day ordinals). -/
structure BookingRow where
  booking_reference : String
  user_id : Nat
  hotel_id : Nat
  room_id : Nat
  check_in_date : Int
  check_out_date : Int
  nights : Int
  guest_name : String
  guest_count : Nat
  total_amount : ℚ
  per_night_rate : ℚ
  corporate_discount : ℚ
  status : String
  purpose_of_travel : String
deriving DecidableEq

/-- The database state visible to the booking core.  `next_user_id` models
the `user_id` AUTOINCREMENT sequence. -/
structure DB where
  users : List UserRow
  hotels : List HotelRow
  rooms : List RoomRow
  pricing_rules : List PricingRule
  room_inventory : List InvRow
  bookings : List BookingRow
  next_user_id : Nat
deriving DecidableEq

/-- Every error a tool call can surface (a Python exception inside the
transaction; the `except` block rolls the transaction back and re-raises). -/
inductive SrvError where
  | hotelOrRoomNotFound
  | roomNotAvailable
  | noneComparedToInt
  | priceFailure (e : PriceError)
  | uniqueViolation
  | roomNotFound
  | guestNotFound
  | bookingNotFound
  | unauthorized
  | alreadyCancelled
deriving DecidableEq

/-- The WHERE clause shared by the availability query, the inventory
decrement and the inventory restore:
`room_id = %s AND date >= %s AND date < %s`. -/
def invRowInRange (room_id : Nat) (d1 d2 : Int) (r : InvRow) : Bool :=
  (r.room_id == room_id) && decide (d1 ≤ r.date) && decide (r.date < d2)

/-- `SELECT ... FROM room_inventory WHERE room_id = %s AND date >= %s AND
date < %s`. -/
def invInRange (inv : List InvRow) (room_id : Nat) (d1 d2 : Int) :
    List InvRow :=
  inv.filter (invRowInRange room_id d1 d2)

/-- `SELECT MIN(available_count)` over the range: `NULL` (here `none`) when
no row matches. -/
def minAvail (inv : List InvRow) (room_id : Nat) (d1 d2 : Int) :
    Option Int :=
  match (invInRange inv room_id d1 d2).map (·.available_count) with
  | [] => none
  | x :: xs => some (xs.foldl min x)

/-- `UPDATE room_inventory SET available_count = available_count - 1` over
the stay range. -/
def decRange (inv : List InvRow) (room_id : Nat) (d1 d2 : Int) :
    List InvRow :=
  inv.map fun r =>
    if invRowInRange room_id d1 d2 r then
      { r with available_count := r.available_count - 1 }
    else r

/-- `UPDATE room_inventory SET available_count = available_count + 1` over
the stay range. -/
def incRange (inv : List InvRow) (room_id : Nat) (d1 d2 : Int) :
    List InvRow :=
  inv.map fun r =>
    if invRowInRange room_id d1 d2 r then
      { r with available_count := r.available_count + 1 }
    else r

/-- `guest_name.strip().split(' ', 1)`: first name before the first space,
rest (possibly empty) as last name. -/
def splitName (guest_name : String) : String × String :=
  match guest_name.trim.splitOn " " with
  | [] => (guest_name.trim, "")
  | [x] => (x, "")
  | x :: rest => (x, String.intercalate " " rest)

/-- The case-insensitive guest lookup
`SELECT ... FROM users WHERE LOWER(email) = LOWER(%s)`. -/
def findUserByEmail (users : List UserRow) (guest_email : String) :
    Option UserRow :=
  users.find? fun u => u.email.toLower == guest_email.toLower

/-- The get-or-create block at the top of `create_booking` (the spec's
Guest Identity Resolver): look up by lowercased email; if absent, insert a
new user row.  `rand_code` stands for `random.randint(1000, 9999)`; the
insert violates a UNIQUE constraint (raising, hence rolling back) when the
generated `user_code` or the exact email already exists. -/
def resolve_guest (db : DB) (guest_email guest_name : String)
    (is_corporate : Bool) (company_name : Option String) (rand_code : Nat) :
    Except SrvError (DB × Nat) :=
  match findUserByEmail db.users guest_email with
  | some u => .ok (db, u.user_id)
  | none =>
    match db.users.any fun u =>
        u.user_code ==
          ((if is_corporate then "CORP" else "INDV") ++ toString rand_code) ||
        u.email == guest_email with
    | true => .error .uniqueViolation
    | false =>
      .ok ({ db with
              users := db.users ++
                [{ user_id := db.next_user_id,
                   user_code :=
                     (if is_corporate then "CORP" else "INDV") ++
                       toString rand_code,
                   first_name := (splitName guest_name).1,
                   last_name := (splitName guest_name).2,
                   email := guest_email, is_corporate := is_corporate,
                   company_name := company_name }]
              next_user_id := db.next_user_id + 1 }, db.next_user_id)

/-- `SELECT h.corporate_discount_percent, r.base_price FROM hotels h JOIN
rooms r ON h.hotel_id = r.hotel_id WHERE h.hotel_id = %s AND r.room_id =
%s`: a row exists iff the hotel exists and the room belongs to it. -/
def findHotelRoom (db : DB) (hotel_id room_id : Nat) :
    Option (HotelRow × RoomRow) :=
  match db.hotels.find? fun h => h.hotel_id == hotel_id with
  | none => none
  | some h =>
    match db.rooms.find? fun r =>
        (r.room_id == room_id) && (r.hotel_id == hotel_id) with
    | none => none
    | some r => some (h, r)

/-- The booking row inserted by `create_booking` (column values as passed
to the INSERT statement; `purpose_of_travel or ""`). -/
def mkBookingRow (booking_ref : String) (user_id hotel_id room_id : Nat)
    (ci co : Int) (pricing : PriceResult) (guest_name : String)
    (guest_count : Nat) (purpose_of_travel : Option String) : BookingRow :=
  { booking_reference := booking_ref, user_id := user_id,
    hotel_id := hotel_id, room_id := room_id,
    check_in_date := ci, check_out_date := co,
    nights := pricing.nights, guest_name := guest_name,
    guest_count := guest_count,
    total_amount := pricing.total_price,
    per_night_rate := pricing.average_per_night,
    corporate_discount := pricing.corporate_discount_applied,
    status := "confirmed",
    purpose_of_travel := purpose_of_travel.getD "" }

/-- `create_booking`: resolve the guest, look up hotel/room, check
availability (`MIN(available_count)`, where a NULL minimum makes the Python
comparison `None < 1` raise a `TypeError`), price the trip, insert the
booking row (UNIQUE `booking_reference`), decrement the inventory range.
`booking_ref` stands for the value of `generate_booking_reference()`. -/
def create_booking (db : DB) (hotel_id room_id : Nat)
    (check_in check_out : Date) (guest_name guest_email : String)
    (is_corporate : Bool) (company_name : Option String) (guest_count : Nat)
    (purpose_of_travel : Option String) (booking_ref : String)
    (rand_code : Nat) : Except SrvError (DB × BookingRow) :=
  match resolve_guest db guest_email guest_name is_corporate company_name
      rand_code with
  | .error e => .error e
  | .ok (db1, user_id) =>
    match findHotelRoom db1 hotel_id room_id with
    | none => .error .hotelOrRoomNotFound
    | some (hotel, room) =>
      match minAvail db1.room_inventory room_id check_in.toOrd
          check_out.toOrd with
      | none => .error .noneComparedToInt
      | some m =>
        if m < 1 then .error .roomNotAvailable
        else
          match calculate_dynamic_price db1.pricing_rules room.base_price
              check_in check_out hotel_id is_corporate
              hotel.corporate_discount_percent with
          | .error e => .error (.priceFailure e)
          | .ok pricing =>
            match db1.bookings.any fun b =>
                b.booking_reference == booking_ref with
            | true => .error .uniqueViolation
            | false =>
              .ok ({ db1 with
                      bookings := db1.bookings ++
                        [mkBookingRow booking_ref user_id hotel_id room_id
                          check_in.toOrd check_out.toOrd pricing guest_name
                          guest_count purpose_of_travel]
                      room_inventory := decRange db1.room_inventory room_id
                        check_in.toOrd check_out.toOrd },
                mkBookingRow booking_ref user_id hotel_id room_id
                  check_in.toOrd check_out.toOrd pricing guest_name
                  guest_count purpose_of_travel)

/-- `cancel_booking`: verify the guest, fetch the booking by reference,
check ownership and status, then flip the status to `cancelled` and restore
the inventory range of the booked stay. -/
def cancel_booking (db : DB) (booking_reference guest_email : String) :
    Except SrvError (DB × BookingRow) :=
  match findUserByEmail db.users guest_email with
  | none => .error .guestNotFound
  | some u =>
    match db.bookings.find? fun b =>
        b.booking_reference == booking_reference with
    | none => .error .bookingNotFound
    | some b =>
      if b.user_id ≠ u.user_id then .error .unauthorized
      else if b.status = "cancelled" then .error .alreadyCancelled
      else
        .ok ({ db with
                bookings := db.bookings.map fun bb =>
                  if bb.booking_reference == booking_reference then
                    { bb with status := "cancelled" }
                  else bb
                room_inventory := incRange db.room_inventory b.room_id
                  b.check_in_date b.check_out_date }, b)

/-- The two JSON shapes `check_room_availability` can return for an
existing room. -/
inductive AvailResult where
  | noData
  | daily (available : Bool) (available_rooms : Int)
      (daily_availability : List InvRow)
deriving DecidableEq

/-- `check_room_availability`: room lookup, then the inventory rows of the
range ordered by date; the no-data message only when that result set is
empty, otherwise the minimum count over the returned rows. -/
def check_room_availability (db : DB) (room_id : Nat)
    (check_in check_out : Date) : Except SrvError AvailResult :=
  match db.rooms.find? fun r => r.room_id == room_id with
  | none => .error .roomNotFound
  | some _ =>
    match (invInRange db.room_inventory room_id check_in.toOrd
        check_out.toOrd).mergeSort (fun a b => decide (a.date ≤ b.date)) with
    | [] => .ok .noData
    | x :: xs =>
      let m := xs.foldl (fun acc r => min acc r.available_count)
        x.available_count
      .ok (.daily (decide (0 < m)) m (x :: xs))

/-- The two JSON shapes `list_bookings_by_email` can return. -/
inductive BookingsListing where
  | noUser (message : String) (bookings_count : Nat)
      (bookings : List BookingRow)
  | forUser (guest_name : String) (bookings_count : Nat)
      (bookings : List BookingRow)
deriving DecidableEq

/-- `list_bookings_by_email`: guest lookup by lowercased email; without a
match, a success payload with zero bookings.  With a match, the guest's
bookings filtered by the optional status (Python truthiness: an empty
status string adds no filter) and, unless `include_past`, by
`check_out_date >= CURRENT_DATE` (`today`), newest check-in first. -/
def list_bookings_by_email (db : DB) (guest_email : String)
    (status : Option String) (include_past : Bool) (today : Int) :
    Except SrvError BookingsListing :=
  match findUserByEmail db.users guest_email with
  | none =>
    .ok (.noUser "No bookings found for this email address" 0 [])
  | some u =>
    let rows := db.bookings.filter fun b =>
      (b.user_id == u.user_id) &&
      (match status with
       | none => true
       | some st => (st == "") || (b.status == st)) &&
      (include_past || decide (today ≤ b.check_out_date))
    let rows := rows.mergeSort fun a b =>
      decide (b.check_in_date ≤ a.check_in_date)
    .ok (.forUser (u.first_name ++ " " ++ u.last_name) rows.length rows)

/-- One state-mutating tool call, with the nondeterministic inputs
(generated booking reference, random user-code suffix) made explicit. -/
inductive Op where
  | create (hotel_id room_id : Nat) (check_in check_out : Date)
      (guest_name guest_email : String) (is_corporate : Bool)
      (company_name : Option String) (guest_count : Nat)
      (purpose_of_travel : Option String) (booking_ref : String)
      (rand_code : Nat)
  | cancel (booking_reference guest_email : String)
deriving DecidableEq

/-- Net effect of a tool call on the database: the committed state on
success, the rolled-back (original) state when the call raises. -/
def applyOp (db : DB) : Op → DB
  | .create hotel_id room_id check_in check_out guest_name guest_email
      is_corporate company_name guest_count purpose_of_travel booking_ref
      rand_code =>
    match create_booking db hotel_id room_id check_in check_out guest_name
        guest_email is_corporate company_name guest_count purpose_of_travel
        booking_ref rand_code with
    | .ok (db', _) => db'
    | .error _ => db
  | .cancel booking_reference guest_email =>
    match cancel_booking db booking_reference guest_email with
    | .ok (db', _) => db'
    | .error _ => db

/-- Sequential execution of tool calls. -/
def runOps (db : DB) (ops : List Op) : DB :=
  ops.foldl applyOp db

/-- The inventory invariant: no availability counter is negative. -/
def InvNonneg (db : DB) : Prop :=
  ∀ r ∈ db.room_inventory, 0 ≤ r.available_count

instance {ε α : Type} [DecidableEq ε] [DecidableEq α] :
    DecidableEq (Except ε α) := fun x y =>
  match x, y with
  | .ok a, .ok b =>
    if h : a = b then .isTrue (by rw [h]) else .isFalse (by simp [h])
  | .error a, .error b =>
    if h : a = b then .isTrue (by rw [h]) else .isFalse (by simp [h])
  | .ok _, .error _ => .isFalse (by simp)
  | .error _, .ok _ => .isFalse (by simp)

theorem foldl_min_le_init (l : List ℤ) (x : ℤ) : l.foldl min x ≤ x := by
  induction l generalizing x with
  | nil => exact le_refl x
  | cons b l ih =>
    exact le_trans (ih (min x b)) (min_le_left x b)

theorem foldl_min_le_mem {a : ℤ} {l : List ℤ} (x : ℤ) (h : a ∈ l) :
    l.foldl min x ≤ a := by
  induction l generalizing x with
  | nil => cases h
  | cons b l ih =>
    rcases List.mem_cons.mp h with hb | hl
    · subst hb
      exact le_trans (foldl_min_le_init l (min x a)) (min_le_right x a)
    · exact ih (min x b) hl

theorem le_foldl_min {c x : ℤ} {l : List ℤ} (hx : c ≤ x)
    (h : ∀ a ∈ l, c ≤ a) : c ≤ l.foldl min x := by
  induction l generalizing x with
  | nil => exact hx
  | cons b l ih =>
    exact ih (le_min hx (h b (List.mem_cons_self b l)))
      fun a ha => h a (List.mem_cons_of_mem b ha)

theorem foldl_min_eq_init_or_mem (l : List ℤ) (x : ℤ) :
    l.foldl min x = x ∨ l.foldl min x ∈ l := by
  induction l generalizing x with
  | nil => exact .inl rfl
  | cons b l ih =>
    rcases ih (min x b) with h | h
    · rcases min_choice x b with hx | hb
      · exact .inl (by rw [List.foldl_cons, h, hx])
      · exact .inr (by rw [List.foldl_cons, h, hb]; exact List.mem_cons_self b l)
    · exact .inr (List.mem_cons_of_mem b h)

theorem mergeSort_eq_nil_iff {α : Type} (l : List α) (le : α → α → Bool) :
    l.mergeSort le = [] ↔ l = [] := by
  constructor
  · intro h
    have := List.mergeSort_perm l le
    rw [h] at this
    exact (this.symm.eq_nil)
  · intro h
    subst h
    simp

theorem minAvail_le {inv : List InvRow} {room_id : Nat} {d1 d2 : Int}
    {m : Int} (h : minAvail inv room_id d1 d2 = some m) :
    ∀ r ∈ inv, invRowInRange room_id d1 d2 r = true →
      m ≤ r.available_count := by
  intro r hr hrng
  unfold minAvail at h
  have hmem : r.available_count ∈
      (invInRange inv room_id d1 d2).map (·.available_count) :=
    List.mem_map_of_mem _ (List.mem_filter.mpr ⟨hr, hrng⟩)
  revert h hmem
  cases hl : (invInRange inv room_id d1 d2).map (·.available_count) with
  | nil => intro h; cases h
  | cons x xs =>
    intro h hmem
    have hm : m = xs.foldl min x := by
      have := h
      simp only [Option.some.injEq] at this
      exact this.symm
    subst hm
    rcases List.mem_cons.mp hmem with hx | hxs
    · rw [← hx]
      exact foldl_min_le_init xs r.available_count
    · exact foldl_min_le_mem x hxs

theorem minAvail_eq_none_iff {inv : List InvRow} {room_id : Nat}
    {d1 d2 : Int} : minAvail inv room_id d1 d2 = none ↔
      invInRange inv room_id d1 d2 = [] := by
  unfold minAvail
  cases hl : (invInRange inv room_id d1 d2) with
  | nil => simp
  | cons x xs => simp

theorem incRange_decRange (inv : List InvRow) (room_id : Nat) (d1 d2 : Int) :
    incRange (decRange inv room_id d1 d2) room_id d1 d2 = inv := by
  unfold incRange decRange
  rw [List.map_map]
  refine Eq.trans (List.map_congr_left ?_) (List.map_id inv)
  intro r _
  simp only [id_eq]
  by_cases h : invRowInRange room_id d1 d2 r = true
  · have h' : invRowInRange room_id d1 d2
        { r with available_count := r.available_count - 1 } = true := by
      unfold invRowInRange at h ⊢
      exact h
    simp only [Function.comp_apply, if_pos h, if_pos h', Int.sub_add_cancel]
  · simp only [Function.comp_apply, if_neg h]

theorem resolve_guest_tables {db : DB} {e n : String} {c : Bool}
    {co : Option String} {rc : Nat} {db1 : DB} {uid : Nat}
    (h : resolve_guest db e n c co rc = .ok (db1, uid)) :
    db1.hotels = db.hotels ∧ db1.rooms = db.rooms ∧
    db1.pricing_rules = db.pricing_rules ∧
    db1.room_inventory = db.room_inventory ∧ db1.bookings = db.bookings := by
  unfold resolve_guest at h
  split at h
  · simp only [Except.ok.injEq, Prod.mk.injEq] at h
    rw [← h.1]
    exact ⟨rfl, rfl, rfl, rfl, rfl⟩
  · revert h
    cases hany : (db.users.any fun u =>
        u.user_code == ((if c then "CORP" else "INDV") ++ toString rc) ||
        u.email == e) with
    | true =>
      intro h
      cases h
    | false =>
      intro h
      simp only [Except.ok.injEq, Prod.mk.injEq] at h
      rw [← h.1]
      exact ⟨rfl, rfl, rfl, rfl, rfl⟩

theorem resolve_guest_find {db : DB} {e n : String} {c : Bool}
    {co : Option String} {rc : Nat} {db1 : DB} {uid : Nat}
    (h : resolve_guest db e n c co rc = .ok (db1, uid)) :
    ∃ u, findUserByEmail db1.users e = some u ∧ u.user_id = uid := by
  unfold resolve_guest at h
  split at h
  · rename_i u heq
    simp only [Except.ok.injEq, Prod.mk.injEq] at h
    refine ⟨u, ?_, h.2⟩
    rw [← h.1]
    exact heq
  · rename_i heq
    revert h
    cases hany : (db.users.any fun u =>
        u.user_code == ((if c then "CORP" else "INDV") ++ toString rc) ||
        u.email == e) with
    | true =>
      intro h
      cases h
    | false =>
      intro h
      simp only [Except.ok.injEq, Prod.mk.injEq] at h
      obtain ⟨h1, h2⟩ := h
      subst h1
      have hfound : findUserByEmail (db.users ++
          [⟨db.next_user_id, (if c then "CORP" else "INDV") ++ toString rc,
            (splitName n).1, (splitName n).2, e, c, co⟩]) e =
          some ⟨db.next_user_id,
            (if c then "CORP" else "INDV") ++ toString rc,
            (splitName n).1, (splitName n).2, e, c, co⟩ := by
        unfold findUserByEmail at heq ⊢
        rw [List.find?_append, heq, Option.none_or]
        simp
      exact ⟨_, hfound, h2⟩

theorem C8_helper_second_resolve {db1 : DB} {e1 e2 n2 : String} {c2 : Bool}
    {co2 : Option String} {r2 : Nat} {u : UserRow}
    (hemail : e1.toLower = e2.toLower)
    (hfind : findUserByEmail db1.users e1 = some u) :
    resolve_guest db1 e2 n2 c2 co2 r2 = .ok (db1, u.user_id) := by
  have hfind2 : findUserByEmail db1.users e2 = some u := by
    unfold findUserByEmail at hfind ⊢
    rw [← hemail]
    exact hfind
  unfold resolve_guest
  rw [hfind2]

theorem create_booking_ok {db : DB} {hotel_id room_id : Nat}
    {check_in check_out : Date} {guest_name guest_email : String}
    {is_corporate : Bool} {company_name : Option String} {guest_count : Nat}
    {purpose_of_travel : Option String} {booking_ref : String}
    {rand_code : Nat} {db' : DB} {bk : BookingRow}
    (h : create_booking db hotel_id room_id check_in check_out guest_name
      guest_email is_corporate company_name guest_count purpose_of_travel
      booking_ref rand_code = .ok (db', bk)) :
    ∃ db1 user_id hotel room m pricing,
      resolve_guest db guest_email guest_name is_corporate company_name
        rand_code = .ok (db1, user_id) ∧
      findHotelRoom db1 hotel_id room_id = some (hotel, room) ∧
      minAvail db1.room_inventory room_id check_in.toOrd check_out.toOrd =
        some m ∧
      1 ≤ m ∧
      calculate_dynamic_price db1.pricing_rules room.base_price check_in
        check_out hotel_id is_corporate hotel.corporate_discount_percent =
        .ok pricing ∧
      (db1.bookings.any fun b => b.booking_reference == booking_ref) =
        false ∧
      bk = mkBookingRow booking_ref user_id hotel_id room_id check_in.toOrd
        check_out.toOrd pricing guest_name guest_count purpose_of_travel ∧
      db' = { db1 with
              bookings := db1.bookings ++ [bk]
              room_inventory := decRange db1.room_inventory room_id
                check_in.toOrd check_out.toOrd } := by
  unfold create_booking at h
  split at h
  · cases h
  · rename_i db1 user_id heq1
    split at h
    · cases h
    · rename_i hotel room heq2
      split at h
      · cases h
      · rename_i m heq3
        split at h
        · cases h
        · rename_i hge
          split at h
          · cases h
          · rename_i pricing heq5
            revert h
            cases heq6 : (db1.bookings.any fun b =>
                b.booking_reference == booking_ref) with
            | true =>
              intro h
              cases h
            | false =>
              intro h
              simp only [Except.ok.injEq, Prod.mk.injEq] at h
              obtain ⟨h1, h2⟩ := h
              refine ⟨db1, user_id, hotel, room, m, pricing, heq1, heq2,
                heq3, by omega, heq5, heq6, h2.symm, ?_⟩
              rw [← h1, ← h2]

theorem decRange_nonneg {inv : List InvRow} {room_id : Nat} {d1 d2 : Int}
    {m : Int} (hnn : ∀ r ∈ inv, 0 ≤ r.available_count)
    (hmin : minAvail inv room_id d1 d2 = some m) (hm : 1 ≤ m) :
    ∀ r ∈ decRange inv room_id d1 d2, 0 ≤ r.available_count := by
  intro r hr
  unfold decRange at hr
  obtain ⟨r0, hr0, hmap⟩ := List.mem_map.mp hr
  by_cases hrng : invRowInRange room_id d1 d2 r0 = true
  · rw [if_pos hrng] at hmap
    rw [← hmap]
    have hle := minAvail_le hmin r0 hr0 hrng
    show 0 ≤ r0.available_count - 1
    omega
  · rw [if_neg hrng] at hmap
    rw [← hmap]
    exact hnn r0 hr0

theorem incRange_nonneg {inv : List InvRow} {room_id : Nat} {d1 d2 : Int}
    (hnn : ∀ r ∈ inv, 0 ≤ r.available_count) :
    ∀ r ∈ incRange inv room_id d1 d2, 0 ≤ r.available_count := by
  intro r hr
  unfold incRange at hr
  obtain ⟨r0, hr0, hmap⟩ := List.mem_map.mp hr
  by_cases hrng : invRowInRange room_id d1 d2 r0 = true
  · rw [if_pos hrng] at hmap
    rw [← hmap]
    have := hnn r0 hr0
    show 0 ≤ r0.available_count + 1
    omega
  · rw [if_neg hrng] at hmap
    rw [← hmap]
    exact hnn r0 hr0

theorem cancel_booking_ok {db : DB} {ref email : String} {db' : DB}
    {b' : BookingRow} (h : cancel_booking db ref email = .ok (db', b')) :
    ∃ u b, findUserByEmail db.users email = some u ∧
      (db.bookings.find? fun bb => bb.booking_reference == ref) = some b ∧
      b.user_id = u.user_id ∧ b.status ≠ "cancelled" ∧ b' = b ∧
      db' = { db with
              bookings := db.bookings.map fun bb =>
                if bb.booking_reference == ref then
                  { bb with status := "cancelled" }
                else bb
              room_inventory := incRange db.room_inventory b.room_id
                b.check_in_date b.check_out_date } := by
  unfold cancel_booking at h
  split at h
  · cases h
  · rename_i u hu
    split at h
    · cases h
    · rename_i b hb
      split at h
      · cases h
      · rename_i hown
        split at h
        · cases h
        · rename_i hst
          simp only [Except.ok.injEq, Prod.mk.injEq] at h
          exact ⟨u, b, hu, hb, not_ne_iff.mp hown, hst, h.2.symm, h.1.symm⟩

theorem applyOp_nonneg {db : DB} (op : Op) (h : InvNonneg db) :
    InvNonneg (applyOp db op) := by
  cases op with
  | create hid rid ci co gn ge corp comp gc purp ref rc =>
    simp only [applyOp]
    split
    · rename_i db' bk hc
      obtain ⟨db1, user_id, hotel, room, m, pricing, h1, _, h3, h4, _, _, _,
        h8⟩ := create_booking_ok hc
      obtain ⟨_, _, _, hinv, _⟩ := resolve_guest_tables h1
      intro r hr
      rw [h8] at hr
      have hnn1 : ∀ r ∈ db1.room_inventory, 0 ≤ r.available_count := by
        rw [hinv]
        exact h
      exact decRange_nonneg hnn1 h3 h4 r hr
    · exact h
  | cancel ref email =>
    simp only [applyOp]
    split
    · rename_i db' b' hc
      obtain ⟨u, b, _, _, _, _, _, h6⟩ := cancel_booking_ok hc
      intro r hr
      rw [h6] at hr
      exact incRange_nonneg h r hr
    · exact h

theorem round2_zero : round2 0 = 0 := by
  norm_num [round2, roundHalfEven]

/-- A minimal concrete database: one hotel (no corporate discount), one
room at 100/night, three inventory nights with counts 1, 5, 5. -/
def exampleDb155 : DB :=
  { users := [], hotels := [⟨1, 0⟩], rooms := [⟨1, 1, 100⟩],
    pricing_rules := [],
    room_inventory :=
      [⟨1, Date.toOrd ⟨2025, 3, 10⟩, 1, 100⟩,
       ⟨1, Date.toOrd ⟨2025, 3, 11⟩, 5, 100⟩,
       ⟨1, Date.toOrd ⟨2025, 3, 12⟩, 5, 100⟩],
    bookings := [], next_user_id := 1 }

/-- The same database with counts 0, 5, 5. -/
def exampleDb055 : DB :=
  { users := [], hotels := [⟨1, 0⟩], rooms := [⟨1, 1, 100⟩],
    pricing_rules := [],
    room_inventory :=
      [⟨1, Date.toOrd ⟨2025, 3, 10⟩, 0, 100⟩,
       ⟨1, Date.toOrd ⟨2025, 3, 11⟩, 5, 100⟩,
       ⟨1, Date.toOrd ⟨2025, 3, 12⟩, 5, 100⟩],
    bookings := [], next_user_id := 1 }

/-- An empty database. -/
def emptyDb : DB :=
  { users := [], hotels := [], rooms := [], pricing_rules := [],
    room_inventory := [], bookings := [], next_user_id := 1 }

/-- C1.  The spec claims `calculate_dynamic_price` fails with
InvalidDateRange whenever check-out ≤ check-in.  Counterexample: with
check-out 2025-03-09 strictly before check-in 2025-03-10 the function
returns a successful result (zero total, negative nights) instead of
failing. -/
theorem C1_counterexample :
    Date.toOrd ⟨2025, 3, 9⟩ ≤ Date.toOrd ⟨2025, 3, 10⟩ ∧
    ∃ r, calculate_dynamic_price [] 100 ⟨2025, 3, 10⟩ ⟨2025, 3, 9⟩ 1 false 0
      = .ok r :=
  ⟨by decide, ⟨_, rfl⟩⟩

/-- C1 (amended).  `calculate_dynamic_price` performs no date-range
validation: when check-out < check-in it returns a successful result with
negative nights and zero total, and when check-out = check-in it fails
with a division-by-zero error (`total_price / nights`), not with any
InvalidDateRange error. -/
theorem C1_amended (rulesDb : List PricingRule) (base : ℚ) (ci co : Date)
    (hid : Nat) (corp : Bool) (disc : ℚ) :
    (co.toOrd < ci.toOrd →
      ∃ r, calculate_dynamic_price rulesDb base ci co hid corp disc =
          .ok r ∧ r.nights < 0 ∧ r.total_price = 0) ∧
    (co.toOrd = ci.toOrd →
      calculate_dynamic_price rulesDb base ci co hid corp disc =
        .error .zeroDivision) := by
  constructor
  · intro hlt
    have htn : (co.toOrd - ci.toOrd).toNat = 0 := by omega
    simp only [calculate_dynamic_price]
    rw [htn, if_neg (by omega : ¬(co.toOrd - ci.toOrd = 0))]
    refine ⟨_, rfl, ?_, ?_⟩
    · show co.toOrd - ci.toOrd < 0
      omega
    · show round2 _ = 0
      simp only [List.range_zero, List.foldl_nil, zero_mul, ite_self,
        sub_zero, round2_zero]
  · intro heq
    simp only [calculate_dynamic_price]
    rw [if_pos (by omega : co.toOrd - ci.toOrd = 0)]

/-- C1 witness: the amended behaviour at concrete dates. -/
theorem C1_witness :
    (∃ r, calculate_dynamic_price [] 100 ⟨2025, 3, 10⟩ ⟨2025, 3, 8⟩ 1
        false 0 = .ok r ∧ r.nights < 0 ∧ r.total_price = 0) ∧
    calculate_dynamic_price [] 100 ⟨2025, 3, 10⟩ ⟨2025, 3, 10⟩ 1 false 0 =
      .error .zeroDivision :=
  ⟨(C1_amended [] 100 ⟨2025, 3, 10⟩ ⟨2025, 3, 8⟩ 1 false 0).1 (by decide),
   (C1_amended [] 100 ⟨2025, 3, 10⟩ ⟨2025, 3, 10⟩ 1 false 0).2 (by decide)⟩

/-- C4: starting from any state in which every inventory counter is
non-negative, any sequential mix of `create_booking` and `cancel_booking`
calls (each committing on success and rolling back on error) keeps every
inventory counter non-negative; quantifying over all operation lists
covers the state after each prefix. -/
theorem C4_theorem (db : DB) (ops : List Op) (h : InvNonneg db) :
    InvNonneg (runOps db ops) := by
  induction ops generalizing db with
  | nil => exact h
  | cons op ops ih =>
    simp only [runOps, List.foldl_cons]
    exact ih (applyOp db op) (applyOp_nonneg op h)

/-- C4 witness: a concrete create-then-cancel sequence. -/
theorem C4_witness :
    InvNonneg (runOps exampleDb155
      [Op.create 1 1 ⟨2025, 3, 10⟩ ⟨2025, 3, 13⟩ "Jane Doe" "jane@x.com"
        false none 1 none "HTL-1" 1234,
       Op.cancel "HTL-1" "jane@x.com"]) :=
  C4_theorem exampleDb155 _ (by unfold InvNonneg; decide)

/-- C7: 2 nights at base price 100.00, hotel-specific rule
{season: peak, multiplier: 1.5, priority: 10} matching both (July) nights,
corporate flag true with a 20 percent discount: pre-discount subtotal
300.00, discount 60.00, final total 240.00. -/
theorem C7_theorem :
    ∃ r, calculate_dynamic_price [⟨some 1, some "peak", none, 3 / 2, 10⟩]
        100 ⟨2025, 7, 7⟩ ⟨2025, 7, 9⟩ 1 true 20 = .ok r ∧
      r.after_dynamic_pricing = 300 ∧ r.corporate_discount_applied = 60 ∧
      r.corporate_discount_amount = 60 ∧ r.total_price = 240 ∧
      r.final_total = 240 ∧ r.nights = 2 := by
  refine ⟨_, rfl, ?_, ?_, ?_, ?_, ?_, ?_⟩ <;> with_unfolding_all rfl

/-- C8: resolving the same email twice (case-insensitively) returns the
same guest id both times, and the second call leaves the user table — and
the whole database — unchanged, whatever name, corporate flag or company
the second call supplies. -/
theorem C8_theorem (db : DB) (e1 e2 n1 n2 : String) (c1 c2 : Bool)
    (co1 co2 : Option String) (r1 r2 : Nat) (db1 : DB) (id1 : Nat)
    (hemail : e1.toLower = e2.toLower)
    (h1 : resolve_guest db e1 n1 c1 co1 r1 = .ok (db1, id1)) :
    resolve_guest db1 e2 n2 c2 co2 r2 = .ok (db1, id1) := by
  obtain ⟨u, hf, hid⟩ := resolve_guest_find h1
  rw [← hid]
  exact C8_helper_second_resolve hemail hf

/-- C8 witness: create a guest, then re-resolve with a different casing,
name, corporate flag and company. -/
theorem C8_witness :
    ∃ db1 id1,
      resolve_guest emptyDb "Jane@X.com" "Jane Doe" false none 1234 =
        .ok (db1, id1) ∧
      resolve_guest db1 "jane@x.com" "Other Name" true (some "Acme") 77 =
        .ok (db1, id1) := by
  refine ⟨_, _, rfl, ?_⟩
  exact C8_theorem emptyDb "Jane@X.com" "jane@x.com" "Jane Doe"
    "Other Name" false true none (some "Acme") 1234 77 _ _
    (by with_unfolding_all decide) rfl

/-- One guest owning one already-cancelled booking. -/
def exampleDbCancelled : DB :=
  { users := [⟨1, "INDV1", "Jane", "Doe", "jane@x.com", false, none⟩],
    hotels := [⟨1, 0⟩], rooms := [⟨1, 1, 100⟩], pricing_rules := [],
    room_inventory := [⟨1, Date.toOrd ⟨2025, 3, 10⟩, 5, 100⟩],
    bookings := [⟨"HTL-9", 1, 1, 1, Date.toOrd ⟨2025, 3, 10⟩,
      Date.toOrd ⟨2025, 3, 11⟩, 1, "Jane Doe", 1, 100, 100, 0,
      "cancelled", ""⟩],
    next_user_id := 2 }

/-- C9: cancelling a booking whose status is already `cancelled`, by the
owning guest, fails with AlreadyCancelled (the status check fires before
any UPDATE), and the rolled-back transaction leaves the database — in
particular every inventory counter — unchanged. -/
theorem C9_theorem (db : DB) (ref email : String) (u : UserRow)
    (b : BookingRow)
    (hu : findUserByEmail db.users email = some u)
    (hb : db.bookings.find? (fun bb => bb.booking_reference == ref) =
      some b)
    (hown : b.user_id = u.user_id) (hst : b.status = "cancelled") :
    cancel_booking db ref email = .error .alreadyCancelled ∧
    applyOp db (.cancel ref email) = db := by
  have hc : cancel_booking db ref email = .error .alreadyCancelled := by
    unfold cancel_booking
    split
    · rename_i heq
      rw [hu] at heq
      cases heq
    · rename_i u' heq
      rw [hu] at heq
      injection heq with heq'
      subst heq'
      split
      · rename_i heq2
        rw [hb] at heq2
        cases heq2
      · rename_i b' heq2
        rw [hb] at heq2
        injection heq2 with heq2'
        subst heq2'
        rw [if_neg (not_ne_iff.mpr hown), if_pos hst]
  refine ⟨hc, ?_⟩
  simp only [applyOp, hc]

/-- C9 witness: the concrete already-cancelled booking. -/
theorem C9_witness :
    cancel_booking exampleDbCancelled "HTL-9" "jane@x.com" =
      .error .alreadyCancelled ∧
    applyOp exampleDbCancelled (.cancel "HTL-9" "jane@x.com") =
      exampleDbCancelled :=
  C9_theorem exampleDbCancelled "HTL-9" "jane@x.com" _ _
    (by with_unfolding_all rfl) (by with_unfolding_all rfl) rfl rfl

/-- C10: when no stored guest matches the email (case-insensitively),
`list_bookings_by_email` returns a successful zero-booking payload rather
than raising a not-found error; the operation performs only SELECT
queries, which the embedding reflects by returning no new state. -/
theorem C10_theorem (db : DB) (e : String) (status : Option String)
    (include_past : Bool) (today : Int)
    (h : ∀ u ∈ db.users, u.email.toLower ≠ e.toLower) :
    list_bookings_by_email db e status include_past today =
      .ok (.noUser "No bookings found for this email address" 0 []) := by
  have hfind : findUserByEmail db.users e = none := by
    unfold findUserByEmail
    rw [List.find?_eq_none]
    intro u hu
    simpa using h u hu
  unfold list_bookings_by_email
  rw [hfind]

/-- One stored guest with a different email address. -/
def exampleDbOneUser : DB :=
  { users := [⟨1, "INDV1", "Bob", "B", "bob@x.com", false, none⟩],
    hotels := [], rooms := [], pricing_rules := [], room_inventory := [],
    bookings := [], next_user_id := 2 }

/-- C10 witness: an email matching no guest. -/
theorem C10_witness :
    list_bookings_by_email exampleDbOneUser "alice@x.com" none false 0 =
      .ok (.noUser "No bookings found for this email address" 0 []) :=
  C10_theorem exampleDbOneUser "alice@x.com" none false 0
    (by with_unfolding_all decide)

/-- C2.  The spec scenario says a three-night `create_booking` against
counts (1, 5, 5) fails with InsufficientInventory.  Counterexample: one
available unit per night satisfies the `MIN(available_count) < 1` guard,
so the booking succeeds and the counters drop to (0, 4, 4). -/
theorem C2_counterexample :
    ∃ db' bk, create_booking exampleDb155 1 1 ⟨2025, 3, 10⟩ ⟨2025, 3, 13⟩
        "Jane Doe" "jane@x.com" false none 1 none "HTL-1" 1234 =
        .ok (db', bk) ∧
      db'.room_inventory.map (fun r => r.available_count) = [0, 4, 4] :=
  ⟨_, _, by with_unfolding_all rfl, by with_unfolding_all rfl⟩

/-- C2 (amended): over three requested nights where the room's
available-unit count is 0 on one night and 5 on the other two,
`create_booking` fails with the room-not-available error (the spec's
InsufficientInventory) and the rolled-back transaction persists neither a
booking row nor any inventory change. -/
theorem C2_amended (db db1 : DB) (hotel_id room_id user_id : Nat)
    (check_in check_out : Date) (guest_name guest_email : String)
    (is_corporate : Bool) (company_name : Option String)
    (guest_count : Nat) (purpose_of_travel : Option String)
    (booking_ref : String) (rand_code : Nat) (hotel : HotelRow)
    (room : RoomRow)
    (hres : resolve_guest db guest_email guest_name is_corporate
      company_name rand_code = .ok (db1, user_id))
    (hhr : findHotelRoom db1 hotel_id room_id = some (hotel, room))
    (hcounts :
      (invInRange db1.room_inventory room_id check_in.toOrd
          check_out.toOrd).map (fun r => r.available_count) = [0, 5, 5] ∨
      (invInRange db1.room_inventory room_id check_in.toOrd
          check_out.toOrd).map (fun r => r.available_count) = [5, 0, 5] ∨
      (invInRange db1.room_inventory room_id check_in.toOrd
          check_out.toOrd).map (fun r => r.available_count) = [5, 5, 0]) :
    create_booking db hotel_id room_id check_in check_out guest_name
      guest_email is_corporate company_name guest_count purpose_of_travel
      booking_ref rand_code = .error .roomNotAvailable ∧
    applyOp db (.create hotel_id room_id check_in check_out guest_name
      guest_email is_corporate company_name guest_count purpose_of_travel
      booking_ref rand_code) = db := by
  have hmin : minAvail db1.room_inventory room_id check_in.toOrd
      check_out.toOrd = some 0 := by
    unfold minAvail
    rcases hcounts with h | h | h <;> rw [h] <;> decide
  have hcreate : create_booking db hotel_id room_id check_in check_out
      guest_name guest_email is_corporate company_name guest_count
      purpose_of_travel booking_ref rand_code =
      .error .roomNotAvailable := by
    unfold create_booking
    split
    · rename_i heq
      rw [hres] at heq
      cases heq
    · rename_i db1' user_id' heq
      rw [hres] at heq
      injection heq with heq'
      injection heq' with h1 h2
      subst h1
      subst h2
      split
      · rename_i heq2
        rw [hhr] at heq2
        cases heq2
      · rename_i hotel' room' heq2
        rw [hhr] at heq2
        injection heq2 with heq2'
        injection heq2' with h3 h4
        subst h3
        subst h4
        split
        · rename_i heq3
          rw [hmin] at heq3
          cases heq3
        · rename_i m heq3
          rw [hmin] at heq3
          injection heq3 with h5
          subst h5
          rw [if_pos (by decide : (0 : ℤ) < 1)]
  refine ⟨hcreate, ?_⟩
  simp only [applyOp, hcreate]

/-- C2 witness: the concrete (0, 5, 5) scenario. -/
theorem C2_witness :
    create_booking exampleDb055 1 1 ⟨2025, 3, 10⟩ ⟨2025, 3, 13⟩ "Jane Doe"
        "jane@x.com" false none 1 none "HTL-1" 1234 =
      .error .roomNotAvailable ∧
    applyOp exampleDb055 (.create 1 1 ⟨2025, 3, 10⟩ ⟨2025, 3, 13⟩
      "Jane Doe" "jane@x.com" false none 1 none "HTL-1" 1234) =
      exampleDb055 :=
  C2_amended exampleDb055 _ 1 1 1 ⟨2025, 3, 10⟩ ⟨2025, 3, 13⟩ "Jane Doe"
    "jane@x.com" false none 1 none "HTL-1" 1234 ⟨1, 0⟩ ⟨1, 1, 100⟩
    (by with_unfolding_all rfl) (by with_unfolding_all rfl)
    (.inl (by with_unfolding_all rfl))

/-- One room whose inventory has an entry only for 2025-03-10. -/
def exampleDbPartial : DB :=
  { users := [], hotels := [⟨1, 0⟩], rooms := [⟨1, 1, 100⟩],
    pricing_rules := [],
    room_inventory := [⟨1, Date.toOrd ⟨2025, 3, 10⟩, 3, 100⟩],
    bookings := [], next_user_id := 1 }

/-- C3.  The spec claims a "no data" result whenever at least one date of
the range has no inventory entry.  Counterexample: for the two-night range
2025-03-10 .. 2025-03-12 the date 2025-03-11 has no entry, yet the check
returns the regular availability payload (minimum 3 over the single
present row), not the no-data signal. -/
theorem C3_counterexample :
    (∀ r ∈ exampleDbPartial.room_inventory,
      ¬(r.room_id = 1 ∧ r.date = Date.toOrd ⟨2025, 3, 11⟩)) ∧
    Date.toOrd ⟨2025, 3, 10⟩ ≤ Date.toOrd ⟨2025, 3, 11⟩ ∧
    Date.toOrd ⟨2025, 3, 11⟩ < Date.toOrd ⟨2025, 3, 12⟩ ∧
    check_room_availability exampleDbPartial 1 ⟨2025, 3, 10⟩
      ⟨2025, 3, 12⟩ =
      .ok (.daily true 3 [⟨1, Date.toOrd ⟨2025, 3, 10⟩, 3, 100⟩]) :=
  ⟨by decide, by decide, by decide, by with_unfolding_all rfl⟩

/-- C3 (amended): for an existing room, `check_room_availability` returns
the no-data payload exactly when no date in the range has an inventory
row; otherwise it returns the minimum available-unit count over the rows
that are present (a date missing from the middle of the range does not
trigger the no-data signal), with the availability flag true iff that
minimum is positive. -/
theorem C3_amended (db : DB) (room_id : Nat) (check_in check_out : Date)
    (room : RoomRow)
    (hroom : db.rooms.find? (fun r => r.room_id == room_id) = some room) :
    (check_room_availability db room_id check_in check_out =
        .ok .noData ↔
      ∀ r ∈ db.room_inventory,
        ¬invRowInRange room_id check_in.toOrd check_out.toOrd r = true) ∧
    (∀ b m daily,
      check_room_availability db room_id check_in check_out =
        .ok (.daily b m daily) →
      b = decide (0 < m) ∧
      (∀ r ∈ db.room_inventory,
        invRowInRange room_id check_in.toOrd check_out.toOrd r = true →
        m ≤ r.available_count) ∧
      (∃ r ∈ db.room_inventory,
        invRowInRange room_id check_in.toOrd check_out.toOrd r = true ∧
        r.available_count = m)) := by
  have hperm := List.mergeSort_perm
    (invInRange db.room_inventory room_id check_in.toOrd check_out.toOrd)
    (fun a b => decide (a.date ≤ b.date))
  unfold check_room_availability
  rw [hroom]
  cases hsort : (invInRange db.room_inventory room_id check_in.toOrd
      check_out.toOrd).mergeSort (fun a b => decide (a.date ≤ b.date)) with
  | nil =>
    rw [hsort] at hperm
    have hnil : invInRange db.room_inventory room_id check_in.toOrd
        check_out.toOrd = [] := hperm.nil_eq.symm
    constructor
    · constructor
      · intro _ r hr
        exact (List.filter_eq_nil_iff.mp hnil) r hr
      · intro _
        rfl
    · intro b m daily h
      have h' : (Except.ok AvailResult.noData :
          Except SrvError AvailResult) = .ok (.daily b m daily) := h
      simp at h'
  | cons x xs =>
    rw [hsort] at hperm
    have hmem : ∀ r, r ∈ invInRange db.room_inventory room_id
        check_in.toOrd check_out.toOrd ↔ r ∈ x :: xs :=
      fun r => hperm.mem_iff.symm
    constructor
    · constructor
      · intro h
        have h' : (Except.ok (AvailResult.daily
            (decide (0 < xs.foldl (fun acc r => min acc r.available_count)
              x.available_count))
            (xs.foldl (fun acc r => min acc r.available_count)
              x.available_count) (x :: xs)) :
            Except SrvError AvailResult) = .ok .noData := h
        simp at h'
      · intro hall
        exfalso
        have : x ∈ invInRange db.room_inventory room_id check_in.toOrd
            check_out.toOrd := (hmem x).mpr (List.mem_cons_self x xs)
        have hx := List.mem_filter.mp this
        exact hall x hx.1 hx.2
    · intro b m daily h
      have h' : (Except.ok (AvailResult.daily
          (decide (0 < xs.foldl (fun acc r => min acc r.available_count)
            x.available_count))
          (xs.foldl (fun acc r => min acc r.available_count)
            x.available_count) (x :: xs)) :
          Except SrvError AvailResult) = .ok (.daily b m daily) := h
      simp only [Except.ok.injEq, AvailResult.daily.injEq] at h'
      obtain ⟨hb, hm, hdaily⟩ := h'
      rw [hm] at hb
      have hfold : xs.foldl (fun acc r => min acc r.available_count)
          x.available_count =
          (xs.map (fun r => r.available_count)).foldl min
            x.available_count := by
        rw [List.foldl_map]
      refine ⟨hb.symm, ?_, ?_⟩
      · intro r hr hrng
        have hrx : r ∈ x :: xs :=
          (hmem r).mp (List.mem_filter.mpr ⟨hr, hrng⟩)
        rw [← hm, hfold]
        rcases List.mem_cons.mp hrx with hrx | hrx
        · rw [hrx]
          exact foldl_min_le_init _ _
        · exact foldl_min_le_mem _
            (List.mem_map_of_mem (fun r => r.available_count) hrx)
      · have hattain := foldl_min_eq_init_or_mem
          (xs.map (fun r => r.available_count)) x.available_count
        rw [← hfold] at hattain
        have hget : ∃ r ∈ x :: xs, r.available_count =
            xs.foldl (fun acc r => min acc r.available_count)
              x.available_count := by
          rcases hattain with ha | ha
          · exact ⟨x, List.mem_cons_self x xs, ha.symm⟩
          · obtain ⟨r, hrmem, hrc⟩ := List.mem_map.mp ha
            exact ⟨r, List.mem_cons_of_mem x hrmem, hrc⟩
        obtain ⟨r, hrmem, hrc⟩ := hget
        have hrf := List.mem_filter.mp ((hmem r).mpr hrmem)
        exact ⟨r, hrf.1, hrf.2, by rw [hrc, hm]⟩

/-- C3 witness: the amended characterisation at the concrete partial
inventory. -/
theorem C3_witness :
    (check_room_availability exampleDbPartial 1 ⟨2025, 3, 10⟩
        ⟨2025, 3, 12⟩ = .ok .noData ↔
      ∀ r ∈ exampleDbPartial.room_inventory,
        ¬invRowInRange 1 (Date.toOrd ⟨2025, 3, 10⟩)
          (Date.toOrd ⟨2025, 3, 12⟩) r = true) ∧
    (∀ b m daily,
      check_room_availability exampleDbPartial 1 ⟨2025, 3, 10⟩
        ⟨2025, 3, 12⟩ = .ok (.daily b m daily) →
      b = decide (0 < m) ∧
      (∀ r ∈ exampleDbPartial.room_inventory,
        invRowInRange 1 (Date.toOrd ⟨2025, 3, 10⟩)
          (Date.toOrd ⟨2025, 3, 12⟩) r = true → m ≤ r.available_count) ∧
      (∃ r ∈ exampleDbPartial.room_inventory,
        invRowInRange 1 (Date.toOrd ⟨2025, 3, 10⟩)
          (Date.toOrd ⟨2025, 3, 12⟩) r = true ∧ r.available_count = m)) :=
  C3_amended exampleDbPartial 1 ⟨2025, 3, 10⟩ ⟨2025, 3, 12⟩ ⟨1, 1, 100⟩ rfl

/-- C5: a successful `create_booking` followed immediately by
`cancel_booking` of that booking by the same guest email succeeds, and the
cancellation's range increment exactly undoes the creation's range
decrement: the whole inventory table returns to its pre-booking state (in
particular every touched date regains its prior available-unit count). -/
theorem C5_theorem (db : DB) (hotel_id room_id : Nat)
    (check_in check_out : Date) (guest_name guest_email : String)
    (is_corporate : Bool) (company_name : Option String)
    (guest_count : Nat) (purpose_of_travel : Option String)
    (booking_ref : String) (rand_code : Nat) (db' : DB) (bk : BookingRow)
    (h : create_booking db hotel_id room_id check_in check_out guest_name
      guest_email is_corporate company_name guest_count purpose_of_travel
      booking_ref rand_code = .ok (db', bk)) :
    ∃ db'' bk2, cancel_booking db' bk.booking_reference guest_email =
      .ok (db'', bk2) ∧ db''.room_inventory = db.room_inventory := by
  obtain ⟨db1, user_id, hotel, room, m, pricing, h1, h2, h3, h4, h5, h6,
    hbk, hdb'⟩ := create_booking_ok h
  obtain ⟨hh, hr, hp, hi, hb⟩ := resolve_guest_tables h1
  obtain ⟨u, hfu, huid⟩ := resolve_guest_find h1
  have href : bk.booking_reference = booking_ref := by
    rw [hbk]
    rfl
  have hfu' : findUserByEmail db'.users guest_email = some u := by
    rw [hdb']
    exact hfu
  have hfind_bk : db'.bookings.find?
      (fun bb => bb.booking_reference == bk.booking_reference) = some bk := by
    rw [hdb']
    show (db1.bookings ++ [bk]).find? _ = some bk
    rw [List.find?_append]
    have hnone : db1.bookings.find?
        (fun bb => bb.booking_reference == bk.booking_reference) = none := by
      rw [List.find?_eq_none]
      intro b hbmem hbeq
      have := List.any_eq_false.mp h6 b hbmem
      rw [href] at hbeq
      exact this hbeq
    rw [hnone, Option.none_or]
    simp
  have hbkuid : bk.user_id = u.user_id := by
    rw [hbk]
    exact huid.symm
  have hbkst : ¬bk.status = "cancelled" := by
    rw [hbk]
    show ¬"confirmed" = "cancelled"
    decide
  have hcancel : cancel_booking db' bk.booking_reference guest_email =
      .ok ({ db' with
              bookings := db'.bookings.map fun bb =>
                if bb.booking_reference == bk.booking_reference then
                  { bb with status := "cancelled" }
                else bb
              room_inventory := incRange db'.room_inventory bk.room_id
                bk.check_in_date bk.check_out_date }, bk) := by
    unfold cancel_booking
    split
    · rename_i heq
      rw [hfu'] at heq
      cases heq
    · rename_i u' heq
      rw [hfu'] at heq
      injection heq with heq'
      subst heq'
      split
      · rename_i heq2
        rw [hfind_bk] at heq2
        cases heq2
      · rename_i b' heq2
        rw [hfind_bk] at heq2
        injection heq2 with heq2'
        subst heq2'
        rw [if_neg (not_ne_iff.mpr hbkuid), if_neg hbkst]
  have hinv2 : incRange db'.room_inventory bk.room_id bk.check_in_date
      bk.check_out_date = db.room_inventory := by
    rw [hbk, hdb']
    show incRange (decRange db1.room_inventory room_id check_in.toOrd
      check_out.toOrd) room_id check_in.toOrd check_out.toOrd =
      db.room_inventory
    rw [incRange_decRange, hi]
  exact ⟨_, bk, hcancel, hinv2⟩

/-- C5 witness: the concrete round trip on the (1, 5, 5) inventory. -/
theorem C5_witness :
    ∃ db' bk, create_booking exampleDb155 1 1 ⟨2025, 3, 10⟩ ⟨2025, 3, 13⟩
        "Jane Doe" "jane@x.com" false none 1 none "HTL-1" 1234 =
        .ok (db', bk) ∧
      ∃ db'' bk2, cancel_booking db' bk.booking_reference "jane@x.com" =
        .ok (db'', bk2) ∧
        db''.room_inventory = exampleDb155.room_inventory := by
  have hcreate : ∃ db' bk, create_booking exampleDb155 1 1 ⟨2025, 3, 10⟩
      ⟨2025, 3, 13⟩ "Jane Doe" "jane@x.com" false none 1 none "HTL-1"
      1234 = .ok (db', bk) := ⟨_, _, by with_unfolding_all rfl⟩
  obtain ⟨db', bk, hc⟩ := hcreate
  exact ⟨db', bk, hc, C5_theorem exampleDb155 1 1 ⟨2025, 3, 10⟩
    ⟨2025, 3, 13⟩ "Jane Doe" "jane@x.com" false none 1 none "HTL-1" 1234
    db' bk hc⟩

/-- The applicability predicate as the amended claim words it: the season
filter is null or empty or equals the night's season, and the day-type
filter is null or empty or equals the night's day-type. -/
def RuleAppliesSpec (r : PricingRule) (season day_type : String) : Prop :=
  (r.season = none ∨ r.season = some "" ∨ r.season = some season) ∧
  (r.day_of_week = none ∨ r.day_of_week = some "" ∨
    r.day_of_week = some day_type)

theorem ruleApplies_iff (r : PricingRule) (season day_type : String) :
    ruleApplies r season day_type = true ↔
      RuleAppliesSpec r season day_type := by
  cases hs : r.season <;> cases hd : r.day_of_week <;>
    simp [ruleApplies, RuleAppliesSpec, hs, hd]

theorem selectMultiplier_spec (l : List PricingRule)
    (season day_type : String)
    (hs : l.Pairwise fun a b => b.priority ≤ a.priority) :
    (∃ r ∈ l, ruleApplies r season day_type = true ∧
       selectMultiplier l season day_type = r.price_multiplier ∧
       ∀ r' ∈ l, ruleApplies r' season day_type = true →
         r'.priority ≤ r.priority) ∨
    ((∀ r ∈ l, ruleApplies r season day_type = false) ∧
      selectMultiplier l season day_type = 1) := by
  induction l with
  | nil =>
    right
    refine ⟨?_, rfl⟩
    intro r hr
    cases hr
  | cons a l ih =>
    obtain ⟨ha, hl⟩ := List.pairwise_cons.mp hs
    by_cases happ : ruleApplies a season day_type = true
    · left
      refine ⟨a, List.mem_cons_self a l, happ, ?_, ?_⟩
      · unfold selectMultiplier
        rw [if_pos happ]
      · intro r' hr' _
        rcases List.mem_cons.mp hr' with h | h
        · rw [h]
        · exact ha r' h
    · have happ' : ruleApplies a season day_type = false := by
        revert happ
        cases ruleApplies a season day_type <;> simp
      have hsel : selectMultiplier (a :: l) season day_type =
          selectMultiplier l season day_type := by
        show (if ruleApplies a season day_type then a.price_multiplier
          else selectMultiplier l season day_type) =
          selectMultiplier l season day_type
        rw [if_neg happ]
      rcases ih hl with ⟨r, hr, hra, hsel2, hmax⟩ | ⟨hnone, hsel2⟩
      · left
        refine ⟨r, List.mem_cons_of_mem a hr, hra, by rw [hsel, hsel2],
          ?_⟩
        intro r' hr' hra'
        rcases List.mem_cons.mp hr' with h | h
        · rw [h] at hra'
          exact absurd hra' happ
        · exact hmax r' h hra'
      · right
        refine ⟨?_, by rw [hsel, hsel2]⟩
        intro r hr
        rcases List.mem_cons.mp hr with h | h
        · rw [h]
          exact happ'
        · exact hnone r h

/-- C6.  The claim says the selected rule's season filter must be null or
equal to the night's season.  Counterexample: Python's truthiness check
(`if rule_season and ...`) also treats an empty-string season filter as a
wildcard, so on a regular-season night a rule whose filter is `""` —
neither null nor equal to `"regular"` — is still selected, making the
multiplier 2 where the claim mandates 1.0. -/
theorem C6_counterexample :
    (PricingRule.mk (some 1) (some "") none 2 5).season ≠ none ∧
    (PricingRule.mk (some 1) (some "") none 2 5).season ≠
      some (get_season (Date.toOrd ⟨2025, 3, 10⟩)) ∧
    nightMultiplier [PricingRule.mk (some 1) (some "") none 2 5] 1
      (Date.toOrd ⟨2025, 3, 10⟩) = 2 ∧ (2 : ℚ) ≠ 1 :=
  ⟨by decide, by decide, by with_unfolding_all rfl, by norm_num⟩

/-- C6 (amended): for every rule set and night, the effective multiplier
is the multiplier of a highest-priority candidate rule (hotel-specific or
global) whose season filter is null, empty, or equal to the night's
season, and whose day-type filter is null, empty, or equal to the night's
day-type; no candidate of strictly higher priority applies.  If no
candidate applies, the multiplier is exactly 1.0. -/
theorem C6_amended (rulesDb : List PricingRule) (hotel_id : Nat)
    (ord : Int) :
    (∃ r ∈ rulesDb, (r.hotel_id = some hotel_id ∨ r.hotel_id = none) ∧
        RuleAppliesSpec r (get_season ord) (dayTypeOfOrd ord) ∧
        nightMultiplier rulesDb hotel_id ord = r.price_multiplier ∧
        ∀ r' ∈ rulesDb,
          (r'.hotel_id = some hotel_id ∨ r'.hotel_id = none) →
          RuleAppliesSpec r' (get_season ord) (dayTypeOfOrd ord) →
          r'.priority ≤ r.priority) ∨
    ((∀ r ∈ rulesDb, (r.hotel_id = some hotel_id ∨ r.hotel_id = none) →
        ¬RuleAppliesSpec r (get_season ord) (dayTypeOfOrd ord)) ∧
      nightMultiplier rulesDb hotel_id ord = 1) := by
  have hmem : ∀ r : PricingRule,
      r ∈ fetchPricingRules rulesDb hotel_id ↔
      r ∈ rulesDb ∧ (r.hotel_id = some hotel_id ∨ r.hotel_id = none) := by
    intro r
    unfold fetchPricingRules
    rw [List.mem_mergeSort, List.mem_filter]
    simp
  have hsorted0 : ((rulesDb.filter fun r =>
      (r.hotel_id == some hotel_id) || (r.hotel_id == none)).mergeSort
      fun a b => decide (b.priority ≤ a.priority)).Pairwise
      fun a b => decide (b.priority ≤ a.priority) = true :=
    List.sorted_mergeSort
      (fun a b c hab hbc => by
        simp only [decide_eq_true_eq] at hab hbc ⊢
        exact le_trans hbc hab)
      (fun a b => by
        simp only [Bool.or_eq_true, decide_eq_true_eq]
        exact le_total b.priority a.priority)
      (rulesDb.filter fun r =>
        (r.hotel_id == some hotel_id) || (r.hotel_id == none))
  have hsorted : (fetchPricingRules rulesDb hotel_id).Pairwise
      fun a b => b.priority ≤ a.priority :=
    hsorted0.imp fun hab => by simpa using hab
  rcases selectMultiplier_spec (fetchPricingRules rulesDb hotel_id)
      (get_season ord) (dayTypeOfOrd ord) hsorted with
    ⟨r, hr, hra, hsel, hmax⟩ | ⟨hnone, hsel⟩
  · left
    obtain ⟨hrdb, hrhid⟩ := (hmem r).mp hr
    refine ⟨r, hrdb, hrhid,
      (ruleApplies_iff r (get_season ord) (dayTypeOfOrd ord)).mp hra,
      hsel, ?_⟩
    intro r' hr' hhid' hspec'
    exact hmax r' ((hmem r').mpr ⟨hr', hhid'⟩)
      ((ruleApplies_iff r' (get_season ord) (dayTypeOfOrd ord)).mpr hspec')
  · right
    refine ⟨?_, hsel⟩
    intro r hr hhid hspec
    have hfalse := hnone r ((hmem r).mpr ⟨hr, hhid⟩)
    have htrue :=
      (ruleApplies_iff r (get_season ord) (dayTypeOfOrd ord)).mpr hspec
    rw [hfalse] at htrue
    cases htrue
